import Mathlib

/-!
Verification development for the PS4Mapping input-interpretation pipeline.

Each definition is a shallow embedding of a function of the repository:
  * report decoding and edge detection from controller/data_parser.py,
  * the haptic threshold detector from gui/tabs/rumble_tab.py together with
    the motor-routing callback from gui/main_window.py,
  * the orientation estimator and offset capture from
    gui/tabs/visualization_tab.py,
  * the inbound command dispatch from network/udp_manager.py.

Machine bytes are modelled as Nat values below 256 inside a List Nat; the
Python struct.unpack calls on two-byte little-endian signed slices are
modelled exactly, including their failure when the slice is shorter than
two bytes (a raised struct.error is modelled as Option.none).  Rational
numbers stand for the float arithmetic of the decoder (only exact halving
and division by 255 occur there); real numbers stand for the float
arithmetic of the orientation filter.
-/

namespace PS4Mapping

/-- The twelve digital button identifiers of the decoder, in the insertion
order of the Python dict literal in parse_controller_data. -/
inductive ButtonId where
  | square | cross | circle | triangle
  | l1 | r1 | l2_pressed | r2_pressed
  | share | options | l3 | r3
deriving DecidableEq, Repr

/-- Iteration order of the buttons dict built by parse_controller_data. -/
def buttonOrder : List ButtonId :=
  [.square, .cross, .circle, .triangle, .l1, .r1, .l2_pressed, .r2_pressed,
   .share, .options, .l3, .r3]

/-- The nine d-pad states of DS4DataParser.DPAD_STATES. -/
inductive Dpad where
  | none | up | ne | right | se | down | sw | left | nw
deriving DecidableEq, Repr

/-- DPAD_STATES.get(code, the none entry): 8 maps to none, 0..7 to the
eight directions, anything else to none. -/
def dpadStates (code : Nat) : Dpad :=
  match code with
  | 8 => .none
  | 0 => .up
  | 1 => .ne
  | 2 => .right
  | 3 => .se
  | 4 => .down
  | 5 => .sw
  | 6 => .left
  | 7 => .nw
  | _ => .none

/-- One analog stick entry of the decoded dict: normalized x, y and the raw
bytes. -/
structure Stick where
  x : ℚ
  y : ℚ
  raw_x : Nat
  raw_y : Nat
deriving DecidableEq, Repr

/-- One trigger entry of the decoded dict: normalized value and raw byte. -/
structure Trigger where
  value : ℚ
  raw : Nat
deriving DecidableEq, Repr

/-- A signed triple, used for the gyro and accelerometer readings. -/
structure Vec3 where
  x : Int
  y : Int
  z : Int
deriving DecidableEq, Repr

/-- The decoded touchpad entry. -/
structure Touch where
  active : Bool
  id : Nat
  x : Int
  y : Int
deriving DecidableEq, Repr

/-- The full decoded controller snapshot, one field per key of the dict
returned by parse_controller_data. -/
structure Snapshot where
  left_stick : Stick
  right_stick : Stick
  l2 : Trigger
  r2 : Trigger
  buttons : ButtonId → Bool
  dpad : Dpad
  dpad_raw : Nat
  ps_button : Bool
  touchpad_pressed : Bool
  gyro : Vec3
  accelerometer : Vec3
  touchpad : Touch
  battery : Nat

/-- struct.unpack of a two-byte little-endian signed slice report[i:i+2].
Python slicing truncates silently and struct.unpack then raises when fewer
than two bytes remain; that raise is modelled as none. -/
def unpackInt16 (report : List Nat) (i : Nat) : Option Int :=
  match report.get? i, report.get? (i + 1) with
  | some lo, some hi =>
      let v : Nat := lo + 256 * hi
      some (if v < 32768 then (v : Int) else (v : Int) - 65536)
  | _, _ => none

/-- Total read of byte i, used only at positions whose presence is implied
by a length guard already established along the control path. -/
def byteAt (report : List Nat) (i : Nat) : Nat :=
  report.getD i 0

/-- Total form of the two-byte little-endian signed unpack, used only at
positions whose presence is implied by a length guard. -/
def readInt16 (report : List Nat) (i : Nat) : Int :=
  let v : Nat := byteAt report i + 256 * byteAt report (i + 1)
  if v < 32768 then (v : Int) else (v : Int) - 65536

/-- The buttons dict of parse_controller_data, as a lookup function over
bytes 5 and 6. -/
def decodeButtons (button_byte1 button_byte2 : Nat) : ButtonId → Bool :=
  fun b =>
    match b with
    | .square => decide (button_byte1 &&& 0x10 ≠ 0)
    | .cross => decide (button_byte1 &&& 0x20 ≠ 0)
    | .circle => decide (button_byte1 &&& 0x40 ≠ 0)
    | .triangle => decide (button_byte1 &&& 0x80 ≠ 0)
    | .l1 => decide (button_byte2 &&& 0x01 ≠ 0)
    | .r1 => decide (button_byte2 &&& 0x02 ≠ 0)
    | .l2_pressed => decide (button_byte2 &&& 0x04 ≠ 0)
    | .r2_pressed => decide (button_byte2 &&& 0x08 ≠ 0)
    | .share => decide (button_byte2 &&& 0x10 ≠ 0)
    | .options => decide (button_byte2 &&& 0x20 ≠ 0)
    | .l3 => decide (button_byte2 &&& 0x40 ≠ 0)
    | .r3 => decide (button_byte2 &&& 0x80 ≠ 0)

/-- The touchpad branch of parse_controller_data: taken when the length
exceeds 35; byte 35 is then present, but the two unpacks at 36 and 38 can
still raise struct.error (modelled as none) when the report ends before
byte 39. -/
def parseTouchpad (report : List Nat) : Option Touch :=
  if report.length > 35 then
    match unpackInt16 report 36, unpackInt16 report 38 with
    | some tx, some ty =>
        some { active := decide (byteAt report 35 &&& 0x80 ≠ 0),
               id := byteAt report 35 &&& 0x7F, x := tx, y := ty }
    | _, _ => none
  else
    some { active := false, id := 0, x := 0, y := 0 }

/-- The battery branch of parse_controller_data: low nibble of byte 30
when the length exceeds 30, otherwise 0. -/
def parseBattery (report : List Nat) : Nat :=
  if report.length > 30 then byteAt report 30 &&& 0x0F else 0

/-- Stick normalization (v - 128) / 128 of parse_controller_data. -/
def normStick (raw : Nat) : ℚ := ((raw : ℚ) - 128) / 128

/-- Trigger normalization raw / 255.0 of parse_controller_data. -/
def normTrigger (raw : Nat) : ℚ := (raw : ℚ) / 255

/-- DS4DataParser.parse_controller_data.  The Python body indexes bytes 1
through 9 directly and unpacks two-byte slices ending at byte 24, so for
every report shorter than 25 bytes some access raises (IndexError or
struct.error); those runs are modelled as none by the leading length
guard.  For lengths of at least 25 every fixed-position access succeeds
and only the touch branch can still raise, exactly as in the source. -/
def parse_controller_data (report : List Nat) : Option Snapshot :=
  if report.length < 25 then none
  else
    match parseTouchpad report with
    | none => none
    | some touchpad =>
        let button_byte1 := byteAt report 5
        let button_byte2 := byteAt report 6
        let dpadCode := button_byte1 &&& 0x0F
        some {
          left_stick := ⟨normStick (byteAt report 1), normStick (byteAt report 2),
                         byteAt report 1, byteAt report 2⟩
          right_stick := ⟨normStick (byteAt report 3), normStick (byteAt report 4),
                          byteAt report 3, byteAt report 4⟩
          l2 := ⟨normTrigger (byteAt report 8), byteAt report 8⟩
          r2 := ⟨normTrigger (byteAt report 9), byteAt report 9⟩
          buttons := decodeButtons button_byte1 button_byte2
          dpad := dpadStates dpadCode
          dpad_raw := dpadCode
          ps_button := decide (byteAt report 7 &&& 0x01 ≠ 0)
          touchpad_pressed := decide (byteAt report 7 &&& 0x02 ≠ 0)
          gyro := ⟨readInt16 report 13, readInt16 report 15, readInt16 report 17⟩
          accelerometer := ⟨readInt16 report 19, readInt16 report 21, readInt16 report 23⟩
          touchpad := touchpad
          battery := parseBattery report
        }

/-- DS4DataParser.validate_report: a report is accepted iff it is at least
25 bytes long. -/
def validate_report (report : List Nat) : Bool :=
  decide (25 ≤ report.length)

/-- The previous digital state kept by the DS4DataParser instance: the
buttons map (empty dict lookups with default False are modelled as the
all-false function) and the previous d-pad value. -/
structure DigitalState where
  buttons : ButtonId → Bool
  dpad : Dpad

/-- The state installed by DS4DataParser.__init__ and by
reset_digital_state: empty buttons dict and d-pad none. -/
def initDigitalState : DigitalState :=
  { buttons := fun _ => false, dpad := .none }

/-- DS4DataParser.reset_digital_state. -/
def reset_digital_state : DigitalState := initDigitalState

/-- The change dict built by check_digital_changes: the buttons that rose
since the previous snapshot, in dict iteration order, and the optional
d-pad press. -/
structure Changes where
  buttons : List ButtonId
  dpad : Option Dpad
deriving DecidableEq, Repr

/-- DS4DataParser.check_digital_changes.  The single previous_digital_state
of the instance is threaded explicitly; the result pairs the optional
change dict (none for no changes, as the Python method returns None) with
the unconditionally overwritten state. -/
def check_digital_changes (prev : DigitalState) (newButtons : ButtonId → Bool)
    (newDpad : Dpad) : Option Changes × DigitalState :=
  let pressed := buttonOrder.filter (fun b => newButtons b && !(prev.buttons b))
  let dpadChange : Option Dpad :=
    if newDpad ≠ Dpad.none ∧ newDpad ≠ prev.dpad then some newDpad else none
  let hasChanges := !pressed.isEmpty || dpadChange.isSome
  (if hasChanges then some ⟨pressed, dpadChange⟩ else none,
   { buttons := newButtons, dpad := newDpad })

/-- Fold of check_digital_changes over a sequence of snapshots, returning
the emitted outputs in order. -/
def runEdgeDetector (st : DigitalState) :
    List ((ButtonId → Bool) × Dpad) → List (Option Changes)
  | [] => []
  | s :: rest =>
      let r := check_digital_changes st s.1 s.2
      r.1 :: runEdgeDetector r.2 rest

/-- The haptic state held by RumbleTab.__init__: the tactile enable flag,
the three threshold enable flags and values, duration and intensity, the
previous trigger values, the per-trigger last-fired threshold numbers and
the hysteresis margin. -/
structure RumbleState where
  tactile_enabled : Bool
  threshold1_enabled : Bool
  threshold1_value : Nat
  threshold2_enabled : Bool
  threshold2_value : Nat
  threshold3_enabled : Bool
  threshold3_value : Nat
  tactile_duration : Nat
  tactile_intensity : Nat
  prev_l2_value : Nat
  prev_r2_value : Nat
  l2_last_rumble_threshold : Option Nat
  r2_last_rumble_threshold : Option Nat
  hysteresis_margin : Nat
deriving DecidableEq, Repr

/-- The field values assigned by RumbleTab.__init__. -/
def initRumbleState : RumbleState where
  tactile_enabled := false
  threshold1_enabled := true
  threshold1_value := 64
  threshold2_enabled := true
  threshold2_value := 128
  threshold3_enabled := true
  threshold3_value := 192
  tactile_duration := 50
  tactile_intensity := 255
  prev_l2_value := 0
  prev_r2_value := 0
  l2_last_rumble_threshold := none
  r2_last_rumble_threshold := none
  hysteresis_margin := 2

/-- The enabled-threshold list built at the top of
RumbleTab._check_threshold_crossing, in source order. -/
def enabledThresholds (st : RumbleState) : List (Nat × Nat) :=
  (if st.threshold1_enabled then [(1, st.threshold1_value)] else []) ++
  (if st.threshold2_enabled then [(2, st.threshold2_value)] else []) ++
  (if st.threshold3_enabled then [(3, st.threshold3_value)] else [])

/-- One iteration of the loop body of _check_threshold_crossing for a
single (threshold_num, threshold_value) pair: on an upward crossing
(prev < value and value at most current) it fires when the trigger's last
fired threshold differs from this number, recording the number; on a
downward crossing (current below value and value at most prev) it fires
nothing and clears the last fired threshold.  The pair returned is the new
last-fired marker and whether the feedback callback fired. -/
def checkThresholdStep (current_value prev_value : Nat) (last : Option Nat)
    (th : Nat × Nat) : Option Nat × Bool :=
  if prev_value < th.2 ∧ th.2 ≤ current_value then
    if last ≠ some th.1 then (some th.1, true) else (last, false)
  else if current_value < th.2 ∧ th.2 ≤ prev_value then
    (none, false)
  else
    (last, false)

/-- The loop of _check_threshold_crossing over the enabled thresholds,
threading the per-trigger last-fired marker (which the Python loop reads
from and writes back to the instance on each iteration) and collecting the
threshold numbers that fired, in order. -/
def runThresholds (current_value prev_value : Nat) (last : Option Nat) :
    List (Nat × Nat) → Option Nat × List Nat
  | [] => (last, [])
  | th :: rest =>
      let s := checkThresholdStep current_value prev_value last th
      let r := runThresholds current_value prev_value s.1 rest
      (r.1, (if s.2 then [th.1] else []) ++ r.2)

/-- RumbleTab._check_threshold_crossing for one trigger name ("l2" or
"r2"): the per-trigger last marker is selected by the trigger string, the
loop runs over the enabled thresholds, and each fire invokes the
trigger_tactile_feedback callback with the trigger name.  Returns the
updated state together with the fired (trigger, threshold_num) events. -/
def check_threshold_crossing (st : RumbleState) (trigger : String)
    (current_value prev_value : Nat) : RumbleState × List (String × Nat) :=
  let last := if trigger == "l2" then st.l2_last_rumble_threshold
              else st.r2_last_rumble_threshold
  let r := runThresholds current_value prev_value last (enabledThresholds st)
  let st' := if trigger == "l2" then { st with l2_last_rumble_threshold := r.1 }
             else { st with r2_last_rumble_threshold := r.1 }
  (st', r.2.map (fun n => (trigger, n)))

/-- RumbleTab.check_tactile_feedback: returns unchanged state and no fires
when tactile feedback is disabled; otherwise checks the L2 thresholds
against the stored previous L2 value, stores the new L2 value, then does
the same for R2.  The fired (trigger, threshold) events are returned in
callback order. -/
def check_tactile_feedback (st : RumbleState) (l2_value r2_value : Nat) :
    RumbleState × List (String × Nat) :=
  if !st.tactile_enabled then (st, [])
  else
    let r1 := check_threshold_crossing st "l2" l2_value st.prev_l2_value
    let st1 := { r1.1 with prev_l2_value := l2_value }
    let r2 := check_threshold_crossing st1 "r2" r2_value st1.prev_r2_value
    let st2 := { r2.1 with prev_r2_value := r2_value }
    (st2, r1.2 ++ r2.2)

/-- DS4ControlUI.trigger_tactile_feedback in gui/main_window.py: the
callback registered as trigger_tactile_feedback of the RumbleTab.  It
receives the trigger name, reads the configured intensity, and calls
set_rumble_simple(strong, weak) where the first argument drives the left
(strong) motor and the second the right (weak) motor.  The comparison is
against the upper-case string "L2" exactly as in the source. -/
def trigger_tactile_feedback (intensity : Nat) (trigger : String) : Nat × Nat :=
  if trigger == "L2" then (intensity, 0) else (0, intensity)

/-- The value shapes json.loads can return: null, booleans, numbers,
strings, arrays and objects (Python dicts, so keys are unique). -/
inductive Json where
  | null
  | jbool (b : Bool)
  | jnum (n : Int)
  | jstr (s : String)
  | jarr (xs : List Json)
  | jobj (fields : List (String × Json))

/-- Python dict .get(key): the value stored under the key, if any. -/
def jsonGet (fields : List (String × Json)) (k : String) : Option Json :=
  fields.lookup k

/-- Python dict .get(key, 0) as used for the r, g, b components of the
set_lightbar command. -/
def jsonGetD (fields : List (String × Json)) (k : String) : Json :=
  (jsonGet fields k).getD (Json.jnum 0)

/-- The observable outcome of one UDPManager.check_ipc_socket call: no
callback invoked, the toggle-window callback invoked, or the lightbar
callback invoked with the three component values. -/
inductive IpcAction where
  | noAction
  | toggleWindow
  | setLightbar (r g b : Json)

/-- Which callbacks are registered on the UDPManager (non-None
toggle_window_callback and _lightbar_callback). -/
structure IpcCallbacks where
  toggle_registered : Bool
  lightbar_registered : Bool

/-- UDPManager.check_ipc_socket on one received datagram.  The first
argument is the outcome of json.loads on the decoded message (none when it
raises JSONDecodeError).  A decoded object with command "set_lightbar" and
a registered lightbar callback invokes it with the r, g, b fields (each
defaulting to 0); any other decoded JSON value invokes nothing (a non-dict
value raises AttributeError at .get, which the blanket except of the
method swallows); a decode failure falls back to the legacy comparison
with the plain string "toggle_window".  Every branch of the Python method
is inside a try/except, so the call never propagates an exception; the
embedding is correspondingly total. -/
def check_ipc_socket (cb : IpcCallbacks) (decoded : Option Json)
    (message : String) : IpcAction :=
  match decoded with
  | some (Json.jobj fields) =>
      match jsonGet fields "command" with
      | some (Json.jstr c) =>
          if c == "set_lightbar" && cb.lightbar_registered then
            IpcAction.setLightbar (jsonGetD fields "r") (jsonGetD fields "g")
              (jsonGetD fields "b")
          else
            IpcAction.noAction
      | _ => IpcAction.noAction
  | some _ => IpcAction.noAction
  | none =>
      if message == "toggle_window" && cb.toggle_registered then
        IpcAction.toggleWindow
      else
        IpcAction.noAction

/-- The roll, pitch, yaw angle triple of the visualization tab, in
radians, as real numbers standing for the Python floats. -/
structure OrientationAngles where
  roll : ℝ
  pitch : ℝ
  yaw : ℝ

/-- The per-axis lock flags of the visualization tab. -/
structure AxisLocks where
  roll : Bool
  pitch : Bool
  yaw : Bool

/-- The estimator state of VisualizationTab: the running filter angles,
the captured zero offset, the lock flags and the tunables alpha,
gyro_sensitivity and damping_factor. -/
structure VisualizationState where
  orientationAngles : OrientationAngles
  orientationOffset : OrientationAngles
  axisLocks : AxisLocks
  alpha : ℝ
  gyro_sensitivity : ℝ
  damping_factor : ℝ

/-- np.radians: degrees to radians. -/
noncomputable def radiansOf (x : ℝ) : ℝ := x * (Real.pi / 180)

/-- np.arctan2 y x, via the complex argument of x + y i. -/
noncomputable def arctan2 (y x : ℝ) : ℝ := Complex.arg ⟨x, y⟩

/-- VisualizationTab.update_orientation_with_fusion with the wall-clock
delta dt passed explicitly.  The accelerometer angles, the three gyro
rates (roll from the x channel, pitch from the z channel, yaw from the y
channel), the three guarded filter assignments and the two guarded damping
assignments follow the source statement by statement; the sequential
mutations of self.orientation are modelled by the staged values. -/
noncomputable def update_orientation_with_fusion (st : VisualizationState)
    (gyro_x gyro_y gyro_z accel_x accel_y accel_z : ℝ) (dt : ℝ) :
    VisualizationState :=
  let alpha := st.alpha
  let accel_roll := arctan2 accel_y accel_z
  let accel_pitch := arctan2 (-accel_x) (Real.sqrt (accel_y ^ 2 + accel_z ^ 2))
  let gyro_roll_rate := radiansOf (gyro_x / st.gyro_sensitivity)
  let gyro_pitch_rate := radiansOf (gyro_z / st.gyro_sensitivity)
  let gyro_yaw_rate := radiansOf (gyro_y / st.gyro_sensitivity)
  let roll1 := if st.axisLocks.roll then st.orientationAngles.roll
    else alpha * (st.orientationAngles.roll + gyro_roll_rate * dt) +
      (1 - alpha) * accel_roll
  let pitch1 := if st.axisLocks.pitch then st.orientationAngles.pitch
    else alpha * (st.orientationAngles.pitch + gyro_pitch_rate * dt) +
      (1 - alpha) * accel_pitch
  let yaw1 := if st.axisLocks.yaw then st.orientationAngles.yaw
    else st.orientationAngles.yaw + gyro_yaw_rate * dt
  let damping := st.damping_factor
  let roll2 := if |gyro_roll_rate| < 0.01 ∧ ¬st.axisLocks.roll
    then roll1 * damping else roll1
  let pitch2 := if |gyro_pitch_rate| < 0.01 ∧ ¬st.axisLocks.pitch
    then pitch1 * damping else pitch1
  { st with orientationAngles := ⟨roll2, pitch2, yaw1⟩ }

/-- VisualizationTab._set_neutral_orientation: store the current roll,
pitch and yaw as the new offset; the filter angles themselves are not
written. -/
def set_neutral_orientation (st : VisualizationState) : VisualizationState :=
  { st with orientationOffset := ⟨st.orientationAngles.roll,
      st.orientationAngles.pitch, st.orientationAngles.yaw⟩ }

/-- The displayed orientation computed by update_gyro_triangle: each raw
filter angle minus the stored offset. -/
def displayed_orientation (st : VisualizationState) : OrientationAngles :=
  ⟨st.orientationAngles.roll - st.orientationOffset.roll,
   st.orientationAngles.pitch - st.orientationOffset.pitch,
   st.orientationAngles.yaw - st.orientationOffset.yaw⟩

/-- A snapshot button map in which only cross is held. -/
def crossOnly : ButtonId → Bool := fun b => b == ButtonId.cross

/-- A snapshot button map in which nothing is held. -/
def noButtons : ButtonId → Bool := fun _ => false

/-- The buttons reported pressed by an optional change dict: its pressed
list, or the empty list for the no-changes sentinel. -/
def pressedOf (c : Option Changes) : List ButtonId :=
  (c.map Changes.buttons).getD []

/-- The d-pad press reported by an optional change dict. -/
def dpadOf (c : Option Changes) : Option Dpad :=
  (c.map Changes.dpad).getD none

/-- Demonstration field list of a well-formed set_lightbar command. -/
def ipcDemoFields : List (String × Json) :=
  [("command", Json.jstr "set_lightbar"), ("r", Json.jnum 10),
   ("g", Json.jnum 20), ("b", Json.jnum 30)]

theorem mem_buttonOrder (b : ButtonId) : b ∈ buttonOrder := by
  cases b <;> simp [buttonOrder]

theorem mem_of_mem_pressedOf_ite {c : Prop} [Decidable c] {L : List ButtonId}
    {d : Option Dpad} {b : ButtonId}
    (h : b ∈ pressedOf (if c then some ⟨L, d⟩ else (none : Option Changes))) :
    b ∈ L := by
  by_cases hc : c
  · simpa [pressedOf, hc] using h
  · simp [pressedOf, hc] at h

theorem check_digital_changes_fst (prev : DigitalState)
    (bs : ButtonId → Bool) (dp : Dpad) :
    (check_digital_changes prev bs dp).1 =
      if (!(buttonOrder.filter (fun b => bs b && !(prev.buttons b))).isEmpty ||
          (if dp ≠ Dpad.none ∧ dp ≠ prev.dpad then some dp
           else (none : Option Dpad)).isSome) = true
      then some ⟨buttonOrder.filter (fun b => bs b && !(prev.buttons b)),
                 if dp ≠ Dpad.none ∧ dp ≠ prev.dpad then some dp else none⟩
      else none := rfl

/-- Claim C1, counterexample: the Edge Detector of data_parser.py keeps a
single previous_digital_state with no profile key.  Pressing cross while
profile A is active records it in that shared state; processing the next
snapshot, now under profile B with cross still held, returns the
no-changes sentinel instead of the press for B that the claim requires. -/
theorem edge_profile_switch_counterexample :
    (check_digital_changes initDigitalState crossOnly Dpad.none).1 =
      some ⟨[ButtonId.cross], none⟩
    ∧ (check_digital_changes
        (check_digital_changes initDigitalState crossOnly Dpad.none).2
        crossOnly Dpad.none).1 = none := by
  decide

/-- Claim C1, amended: the Edge Detector keeps one shared
previous-digital-state regardless of profile name, so state recorded while
one profile is active does affect detection under another: a button held
across two consecutive snapshots is never re-reported on the second one,
whatever profile is considered active for either snapshot. -/
theorem edge_state_shared_across_profiles (d : DigitalState)
    (bs bs' : ButtonId → Bool) (dp dp' : Dpad) (b : ButtonId)
    (hb : bs b = true) (hb' : bs' b = true) :
    b ∉ pressedOf (check_digital_changes
      (check_digital_changes d bs dp).2 bs' dp').1 := by
  have h2 : (check_digital_changes d bs dp).2 = ⟨bs, dp⟩ := rfl
  rw [h2, check_digital_changes_fst]
  intro hmem
  have h := mem_of_mem_pressedOf_ite hmem
  simp [List.mem_filter, hb, hb'] at h

theorem edge_state_shared_across_profiles_witness :
    ButtonId.cross ∉ pressedOf (check_digital_changes
      (check_digital_changes initDigitalState crossOnly Dpad.none).2
      crossOnly Dpad.none).1 :=
  edge_state_shared_across_profiles initDigitalState crossOnly crossOnly
    Dpad.none Dpad.none ButtonId.cross (by decide) (by decide)

/-- Claim C7: over the pressed sequence false, true, true, false, true of
the cross button, the Edge Detector emits exactly two presses, at indices
1 and 4, returning the None sentinel at indices 0, 2 and 3; and every call
overwrites the stored previous state with the digital state of the new
snapshot. -/
theorem edge_sequence_two_presses :
    runEdgeDetector initDigitalState
      [(noButtons, .none), (crossOnly, .none), (crossOnly, .none),
       (noButtons, .none), (crossOnly, .none)] =
      [none, some ⟨[.cross], none⟩, none, none, some ⟨[.cross], none⟩]
    ∧ ∀ (prev : DigitalState) (bs : ButtonId → Bool) (dp : Dpad),
        (check_digital_changes prev bs dp).2 = ⟨bs, dp⟩ :=
  ⟨by decide, fun _ _ _ => rfl⟩

/-- Claim C10: on the first snapshot processed from the freshly
initialized (or reset) state, every held button is reported as a press,
because the empty previous-buttons dict reads as not-pressed, and any
non-none d-pad direction is reported, because the initial d-pad state is
none. -/
theorem first_snapshot_reports_all_held (bs : ButtonId → Bool) (dp : Dpad) :
    (∀ b, bs b = true →
      b ∈ pressedOf (check_digital_changes initDigitalState bs dp).1)
    ∧ (dp ≠ Dpad.none →
      dpadOf (check_digital_changes initDigitalState bs dp).1 = some dp) := by
  constructor
  · intro b hb
    have hmem : b ∈ buttonOrder.filter
        (fun x => bs x && !(initDigitalState.buttons x)) := by
      simp [List.mem_filter, mem_buttonOrder b, hb, initDigitalState]
    rw [check_digital_changes_fst]
    have hne : (buttonOrder.filter
        (fun x => bs x && !(initDigitalState.buttons x))).isEmpty = false := by
      cases hE : (buttonOrder.filter
          (fun x => bs x && !(initDigitalState.buttons x))).isEmpty
      · rfl
      · exact absurd (List.isEmpty_iff.mp hE ▸ hmem) (List.not_mem_nil b)
    rw [if_pos (by simp [hne])]
    simpa [pressedOf] using hmem
  · intro hdp
    have hcond : dp ≠ Dpad.none ∧ dp ≠ initDigitalState.dpad :=
      ⟨hdp, by simpa [initDigitalState] using hdp⟩
    rw [check_digital_changes_fst]
    rw [if_pos (by simp [hcond])]
    simp [dpadOf, hcond]

theorem first_snapshot_reports_all_held_witness :
    ButtonId.cross ∈ pressedOf
      (check_digital_changes initDigitalState crossOnly Dpad.up).1
    ∧ dpadOf (check_digital_changes initDigitalState crossOnly Dpad.up).1 =
      some Dpad.up :=
  ⟨(first_snapshot_reports_all_held crossOnly Dpad.up).1 ButtonId.cross
     (by decide),
   (first_snapshot_reports_all_held crossOnly Dpad.up).2 (by decide)⟩

/-- The rumble state right after a user enables tactile feedback on a
fresh tab: all other fields keep their __init__ values. -/
def tactileOnState : RumbleState :=
  { initRumbleState with tactile_enabled := true }

/-- Claim C2, counterexample: with the default thresholds and margin and
tactile feedback enabled, raising L2 from 0 to 100 crosses threshold 1
(value 64) upward and fires once; lowering L2 from 100 to 50 then crosses
the same threshold downward with the current value 14 points away from it,
so the claim requires a second fire (the hysteresis exception applies
since 14 is at least the margin 2), yet the code fires nothing on a
downward crossing and merely clears the last-fired marker. -/
theorem haptic_downward_crossing_counterexample :
    (check_tactile_feedback tactileOnState 100 0).2 = [("l2", 1)]
    ∧ (check_tactile_feedback
        (check_tactile_feedback tactileOnState 100 0).1 50 0).2 = []
    ∧ (check_tactile_feedback tactileOnState 100 0).1.prev_l2_value = 100
    ∧ (check_tactile_feedback tactileOnState 100 0).1.l2_last_rumble_threshold =
        some 1
    ∧ tactileOnState.threshold1_value = 64 ∧ (50 : Nat) < 64 ∧ (64 : Nat) ≤ 100
    ∧ 64 - 50 ≥ tactileOnState.hysteresis_margin := by
  decide

/-- Claim C2, amended: per enabled threshold, only an upward crossing
(prev below the value, current at or above it) fires, and it fires exactly
when the threshold number differs from the trigger's last-fired marker,
which the fire then records; a downward crossing (current below the value,
prev at or above it) never fires and clears the marker; and the
hysteresis_margin field is never consulted, so the fired events of a call
do not depend on it. -/
theorem haptic_threshold_behavior (current_value prev_value : Nat)
    (last : Option Nat) (tn tv : Nat) (st : RumbleState)
    (m l2_value r2_value : Nat) :
    ((checkThresholdStep current_value prev_value last (tn, tv)).2 = true ↔
      (prev_value < tv ∧ tv ≤ current_value ∧ last ≠ some tn))
    ∧ ((check_tactile_feedback { st with hysteresis_margin := m }
          l2_value r2_value).2 =
        (check_tactile_feedback st l2_value r2_value).2)
    ∧ (current_value < tv → tv ≤ prev_value →
        checkThresholdStep current_value prev_value last (tn, tv) =
          (none, false)) := by
  refine ⟨?_, ?_, ?_⟩
  · unfold checkThresholdStep
    by_cases hup : prev_value < tv ∧ tv ≤ current_value
    · by_cases hl : last ≠ some tn <;> simp [hup, hl]
    · by_cases hdn : current_value < tv ∧ tv ≤ prev_value
      · simp [hup, hdn]
      · simp [hup, hdn]
        exact fun h1 h2 => absurd ⟨h1, h2⟩ hup
  · by_cases hte : st.tactile_enabled <;>
      simp [check_tactile_feedback, check_threshold_crossing,
        enabledThresholds, hte]
  · intro h1 h2
    unfold checkThresholdStep
    have hnup : ¬(prev_value < tv ∧ tv ≤ current_value) := by
      rintro ⟨-, hc⟩
      exact absurd (lt_of_le_of_lt hc h1) (lt_irrefl tv)
    simp [hnup, h1, h2]

theorem haptic_threshold_behavior_witness :
    checkThresholdStep 50 100 (some 1) (1, 64) = (none, false) :=
  (haptic_threshold_behavior 50 100 (some 1) 1 64 initRumbleState 7 0 0).2.2
    (by decide) (by decide)

/-- Claim C3: the RumbleTab fires its callback with the lower-case trigger
name "l2", while DS4ControlUI.trigger_tactile_feedback compares against
the upper-case "L2"; the comparison therefore never succeeds and an L2
threshold crossing drives the weak (right) motor at the configured
intensity with the strong (left) motor at zero, contradicting the claimed
L2-to-strong routing (the R2 routing to the weak motor and the
one-motor-per-request property do hold). -/
theorem l2_crossing_drives_weak_motor :
    (check_tactile_feedback tactileOnState 100 0).2 = [("l2", 1)]
    ∧ trigger_tactile_feedback initRumbleState.tactile_intensity "l2" =
        (0, 255)
    ∧ trigger_tactile_feedback initRumbleState.tactile_intensity "r2" =
        (0, 255)
    ∧ initRumbleState.tactile_intensity = 255 := by
  decide

/-- Claim C4: a 36-byte all-zero report passes validate_report (which only
requires 25 bytes) but parse_controller_data raises on it: the touch
branch runs because the length exceeds 35, and the two-byte unpack at
offset 36 then fails (struct.error, modelled as none).  A 35-byte report,
by contrast, decodes completely with zeroed touch fields, so decoding is
partial on validated lengths 36 through 39. -/
theorem validated_length36_decode_fails :
    validate_report (List.replicate 36 0) = true
    ∧ (parse_controller_data (List.replicate 36 0)).isNone = true
    ∧ validate_report (List.replicate 35 0) = true
    ∧ (parse_controller_data (List.replicate 35 0)).isSome = true
    ∧ (parse_controller_data (List.replicate 35 0)).map
        (fun s => s.touchpad) = some ⟨false, 0, 0, 0⟩ := by
  decide

/-- Claim C5: the decoder stores bit 7 of byte 35 directly into the touch
active flag instead of its negation: a 40-byte report whose byte 35 is
0x00 (bit 7 clear, meaning touch active per the claim) decodes with
active = false, and one whose byte 35 is 0x80 (bit 7 set, meaning touch
inactive per the claim) decodes with active = true.  Bits 0 to 6 do give
the touch id. -/
theorem touch_active_equals_bit7 :
    (parse_controller_data (List.replicate 40 0)).map
      (fun s => s.touchpad.active) = some false
    ∧ (parse_controller_data
        (List.replicate 35 0 ++ 0x80 :: List.replicate 4 0)).map
      (fun s => s.touchpad.active) = some true
    ∧ (parse_controller_data
        (List.replicate 35 0 ++ 0xFF :: List.replicate 4 0)).map
      (fun s => s.touchpad.id) = some 0x7F := by
  decide

/-- The filter angles produced by one fusion update. -/
noncomputable def fusedAngles (st : VisualizationState)
    (gyro_x gyro_y gyro_z accel_x accel_y accel_z dt : ℝ) :
    OrientationAngles :=
  (update_orientation_with_fusion st gyro_x gyro_y gyro_z accel_x accel_y
    accel_z dt).orientationAngles

/-- Claim C6: in the per-sample update, the pitch rate comes from the
z-gyro channel and the yaw rate from the y-gyro channel (roll from x);
yaw integrates the rate with no accelerometer term; locked axes are left
unchanged; and after the filter step damping multiplies only the unlocked
roll and pitch values and only when the corresponding rate is below 0.01
in magnitude, while yaw is never damped. -/
theorem orientation_axis_mapping_lock_damping (st : VisualizationState)
    (gyro_x gyro_y gyro_z accel_x accel_y accel_z dt : ℝ) :
    (st.axisLocks.roll = true →
      (fusedAngles st gyro_x gyro_y gyro_z accel_x accel_y accel_z dt).roll =
        st.orientationAngles.roll)
    ∧ (st.axisLocks.pitch = true →
      (fusedAngles st gyro_x gyro_y gyro_z accel_x accel_y accel_z dt).pitch =
        st.orientationAngles.pitch)
    ∧ (st.axisLocks.yaw = true →
      (fusedAngles st gyro_x gyro_y gyro_z accel_x accel_y accel_z dt).yaw =
        st.orientationAngles.yaw)
    ∧ (st.axisLocks.yaw = false →
      (fusedAngles st gyro_x gyro_y gyro_z accel_x accel_y accel_z dt).yaw =
        st.orientationAngles.yaw +
          radiansOf (gyro_y / st.gyro_sensitivity) * dt)
    ∧ (st.axisLocks.roll = false →
      (fusedAngles st gyro_x gyro_y gyro_z accel_x accel_y accel_z dt).roll =
        (if |radiansOf (gyro_x / st.gyro_sensitivity)| < 0.01 then
          (st.alpha * (st.orientationAngles.roll +
              radiansOf (gyro_x / st.gyro_sensitivity) * dt) +
            (1 - st.alpha) * arctan2 accel_y accel_z) * st.damping_factor
        else
          st.alpha * (st.orientationAngles.roll +
              radiansOf (gyro_x / st.gyro_sensitivity) * dt) +
            (1 - st.alpha) * arctan2 accel_y accel_z))
    ∧ (st.axisLocks.pitch = false →
      (fusedAngles st gyro_x gyro_y gyro_z accel_x accel_y accel_z dt).pitch =
        (if |radiansOf (gyro_z / st.gyro_sensitivity)| < 0.01 then
          (st.alpha * (st.orientationAngles.pitch +
              radiansOf (gyro_z / st.gyro_sensitivity) * dt) +
            (1 - st.alpha) * arctan2 (-accel_x)
              (Real.sqrt (accel_y ^ 2 + accel_z ^ 2))) * st.damping_factor
        else
          st.alpha * (st.orientationAngles.pitch +
              radiansOf (gyro_z / st.gyro_sensitivity) * dt) +
            (1 - st.alpha) * arctan2 (-accel_x)
              (Real.sqrt (accel_y ^ 2 + accel_z ^ 2)))) := by
  refine ⟨?_, ?_, ?_, ?_, ?_, ?_⟩ <;> intro h <;>
    simp [fusedAngles, update_orientation_with_fusion, h]

/-- A state with every axis locked, used to instantiate the lock clauses
of the orientation theorem. -/
noncomputable def allLockedState : VisualizationState where
  orientationAngles := ⟨1, 2, 3⟩
  orientationOffset := ⟨0, 0, 0⟩
  axisLocks := ⟨true, true, true⟩
  alpha := 98 / 100
  gyro_sensitivity := 500
  damping_factor := 95 / 100

/-- A state with every axis unlocked, used to instantiate the filter and
damping clauses of the orientation theorem. -/
noncomputable def allFreeState : VisualizationState where
  orientationAngles := ⟨1, 2, 3⟩
  orientationOffset := ⟨0, 0, 0⟩
  axisLocks := ⟨false, false, false⟩
  alpha := 98 / 100
  gyro_sensitivity := 500
  damping_factor := 95 / 100

theorem orientation_axis_mapping_lock_damping_witness :
    ((fusedAngles allLockedState 5 6 7 8 9 10 1).roll =
        allLockedState.orientationAngles.roll
      ∧ (fusedAngles allLockedState 5 6 7 8 9 10 1).pitch =
        allLockedState.orientationAngles.pitch
      ∧ (fusedAngles allLockedState 5 6 7 8 9 10 1).yaw =
        allLockedState.orientationAngles.yaw)
    ∧ (fusedAngles allFreeState 5 6 7 8 9 10 1).yaw =
        allFreeState.orientationAngles.yaw +
          radiansOf (6 / allFreeState.gyro_sensitivity) * 1
    ∧ (fusedAngles allFreeState 5 6 7 8 9 10 1).roll =
        (if |radiansOf (5 / allFreeState.gyro_sensitivity)| < 0.01 then
          (allFreeState.alpha * (allFreeState.orientationAngles.roll +
              radiansOf (5 / allFreeState.gyro_sensitivity) * 1) +
            (1 - allFreeState.alpha) * arctan2 9 10) *
              allFreeState.damping_factor
        else
          allFreeState.alpha * (allFreeState.orientationAngles.roll +
              radiansOf (5 / allFreeState.gyro_sensitivity) * 1) +
            (1 - allFreeState.alpha) * arctan2 9 10)
    ∧ (fusedAngles allFreeState 5 6 7 8 9 10 1).pitch =
        (if |radiansOf (7 / allFreeState.gyro_sensitivity)| < 0.01 then
          (allFreeState.alpha * (allFreeState.orientationAngles.pitch +
              radiansOf (7 / allFreeState.gyro_sensitivity) * 1) +
            (1 - allFreeState.alpha) * arctan2 (-8)
              (Real.sqrt (9 ^ 2 + 10 ^ 2))) * allFreeState.damping_factor
        else
          allFreeState.alpha * (allFreeState.orientationAngles.pitch +
              radiansOf (7 / allFreeState.gyro_sensitivity) * 1) +
            (1 - allFreeState.alpha) * arctan2 (-8)
              (Real.sqrt (9 ^ 2 + 10 ^ 2))) :=
  ⟨⟨(orientation_axis_mapping_lock_damping allLockedState 5 6 7 8 9 10 1).1
      rfl,
    (orientation_axis_mapping_lock_damping allLockedState 5 6 7 8 9 10 1).2.1
      rfl,
    (orientation_axis_mapping_lock_damping allLockedState 5 6 7 8 9 10
        1).2.2.1 rfl⟩,
   (orientation_axis_mapping_lock_damping allFreeState 5 6 7 8 9 10
      1).2.2.2.1 rfl,
   (orientation_axis_mapping_lock_damping allFreeState 5 6 7 8 9 10
      1).2.2.2.2.1 rfl,
   (orientation_axis_mapping_lock_damping allFreeState 5 6 7 8 9 10
      1).2.2.2.2.2 rfl⟩

/-- Claim C8: capturing the neutral orientation stores the current angles
as the offset without touching the filter angles, so the displayed
orientation (raw minus offset) is zero after one capture and still zero
after a second capture with no intervening update. -/
theorem offset_capture_idempotent (st : VisualizationState) :
    displayed_orientation (set_neutral_orientation st) = ⟨0, 0, 0⟩
    ∧ displayed_orientation
        (set_neutral_orientation (set_neutral_orientation st)) = ⟨0, 0, 0⟩
    ∧ (set_neutral_orientation st).orientationAngles =
        st.orientationAngles := by
  refine ⟨?_, ?_, rfl⟩ <;>
    simp [displayed_orientation, set_neutral_orientation]

/-- Claim C9: a datagram that fails JSON decoding invokes the registered
toggle-window callback exactly when the raw message is the legacy plain
string "toggle_window" and is ignored otherwise; a decoded object whose
command field is the string "set_lightbar" invokes the registered lightbar
callback with its r, g, b fields (defaulting to 0); a decoded non-object
value or an object without a command invokes nothing; and the dispatch is
a total function, mirroring the try/except wrapper that keeps the Python
method from propagating any exception. -/
theorem ipc_command_dispatch (cb : IpcCallbacks) (msg : String)
    (fields : List (String × Json)) (xs : List Json) :
    (check_ipc_socket cb none msg =
      if msg == "toggle_window" && cb.toggle_registered then
        IpcAction.toggleWindow
      else IpcAction.noAction)
    ∧ (jsonGet fields "command" = some (Json.jstr "set_lightbar") →
       cb.lightbar_registered = true →
       check_ipc_socket cb (some (Json.jobj fields)) msg =
         IpcAction.setLightbar (jsonGetD fields "r") (jsonGetD fields "g")
           (jsonGetD fields "b"))
    ∧ check_ipc_socket cb (some (Json.jarr xs)) msg = IpcAction.noAction
    ∧ (jsonGet fields "command" = none →
       check_ipc_socket cb (some (Json.jobj fields)) msg =
         IpcAction.noAction) := by
  refine ⟨rfl, ?_, rfl, ?_⟩
  · intro hc hl
    simp [check_ipc_socket, hc, hl]
  · intro hc
    simp [check_ipc_socket, hc]

theorem ipc_command_dispatch_witness :
    check_ipc_socket ⟨true, true⟩ (some (Json.jobj ipcDemoFields)) "x" =
      IpcAction.setLightbar (jsonGetD ipcDemoFields "r")
        (jsonGetD ipcDemoFields "g") (jsonGetD ipcDemoFields "b") :=
  (ipc_command_dispatch ⟨true, true⟩ "x" ipcDemoFields []).2.1 rfl rfl

end PS4Mapping
